import Mathlib

set_option maxRecDepth 8000

/-- Raw user record as delivered by the external JSONPlaceholder API
(mock data in src/src/services/apiService.test.js, matching the service
source appended to that file).  The nested company object is flattened to
the name it carries, the only part the application reads. -/
structure RawUser where
  id : Int
  name : String
  email : String
  phone : String
  website : String
  companyName : String
deriving DecidableEq

/-- Student display record produced by the transform inside
apiService.fetchStudents. -/
structure Student where
  id : Int
  name : String
  course : String
  year : String
  email : String
  phone : String
  website : String
deriving DecidableEq

/-- JavaScript string fallback: the expression s OR d, where the empty
string is the only falsy string. -/
def jsOr (s d : List Char) : List Char := if s = [] then d else s

/-- Splitting a character list on single spaces, keeping empty fragments,
exactly as the JavaScript expression splitting a string on a one-space
separator: the result is never the empty list, and the empty string
splits into one empty fragment. -/
def splitSpace : List Char → List (List Char)
  | [] => [[]]
  | c :: cs =>
    match splitSpace cs with
    | [] => [[]]
    | t :: ts => if c = ' ' then [] :: t :: ts else (c :: t) :: ts

/-- Fixed Philippine course list from apiService.fetchStudents. -/
def courses : List String :=
  ["BS Computer Science", "BS Information Technology", "BS Business Administration",
   "BS Accountancy", "BS Nursing", "BS Psychology", "BS Civil Engineering",
   "BS Electrical Engineering", "BS Architecture", "AB Communication"]

/-- Digit extraction of the service: strip every non-digit character from
the raw phone and keep the first ten digits. -/
def phoneDigits (phone : String) : List Char := (phone.data.filter Char.isDigit).take 10

/-- Formatted Philippine phone: the +63 prefix and the three digit groups
sliced out of the extracted digits. -/
def formattedPhone (phone : String) : List Char :=
  "+63 ".data ++ (phoneDigits phone).take 3 ++ [' ']
    ++ ((phoneDigits phone).drop 3).take 3 ++ [' ']
    ++ ((phoneDigits phone).drop 6).take 4

/-- Name fragments of the service: the raw name lower-cased and split on
single spaces.  Lower-casing is modelled character-wise. -/
def nameParts (name : String) : List (List Char) := splitSpace (name.data.map Char.toLower)

/-- First fragment with the falsy fallback to the literal student. -/
def firstName (name : String) : List Char := jsOr ((nameParts name).getD 0 []) "student".data

/-- Last fragment with the falsy fallback to the literal user. -/
def lastName (name : String) : List Char :=
  jsOr ((nameParts name).getD ((nameParts name).length - 1) []) "user".data

/-- Synthesized student email of the service. -/
def studentEmail (name : String) : List Char :=
  firstName name ++ ".".data ++ lastName name ++ "@student.edu.ph".data

/-- Synthesized student website of the service. -/
def phWebsite (name : String) : List Char :=
  firstName name ++ "-".data ++ lastName name ++ ".edu.ph".data

/-- Year level assignment of the service: the positional index modulo
four, plus one, rendered as a string. -/
def yearLevel (index : Nat) : String := toString (index % 4 + 1)

/-- Per-element transform of apiService.fetchStudents, a pure function of
the raw user and its zero-based position. -/
def transformUser (user : RawUser) (index : Nat) : Student :=
  { id := user.id
    name := user.name
    course := courses.getD (index % courses.length) ""
    year := yearLevel index
    email := String.mk (studentEmail user.name)
    phone := String.mk (formattedPhone user.phone)
    website := String.mk (phWebsite user.name) }

/-- Indexed map of the service, with an explicit running index. -/
def transformFrom (start : Nat) : List RawUser → List Student
  | [] => []
  | u :: us => transformUser u start :: transformFrom (start + 1) us

/-- Whole-payload transform: the indexed map starting at position zero. -/
def transform (users : List RawUser) : List Student := transformFrom 0 users

/-- Shape of the axios rejection the catch block inspects: an optional
error code, the status of an optional received response, and whether a
request object is present. -/
structure AxiosError where
  code : Option String
  responseStatus : Option Nat
  hasRequest : Bool
deriving DecidableEq

/-- Outcome of the awaited axios get: either a parsed body or a
rejection. -/
inductive AxiosResult where
  | ok (data : List RawUser)
  | err (e : AxiosError)
deriving DecidableEq

/-- Structured error object returned from the catch block. -/
structure ErrorObj where
  error : Bool
  message : String
deriving DecidableEq

/-- Value fetchStudents resolves with: a plain student array on success,
the structured error object on failure. -/
inductive FetchResultV where
  | students (l : List Student)
  | errObj (o : ErrorObj)
deriving DecidableEq

/-- Error classification of the catch block, including its default and
the if, else-if priority order of the source. -/
def errorMessage (e : AxiosError) : String :=
  if e.code = some "ECONNABORTED" then "Request timeout - please try again"
  else
    match e.responseStatus with
    | some status => "Server error: " ++ toString status
    | none =>
      if e.hasRequest then "Network error - please check your connection"
      else "Failed to fetch students"

/-- Shallow embedding of apiService.fetchStudents over the axios
outcome: the try block transforms a successful body, the catch block
returns the tagged error object. -/
def fetchStudents : AxiosResult → FetchResultV
  | .ok data => .students (transform data)
  | .err e => .errObj { error := true, message := errorMessage e }

/-- First mock JSONPlaceholder user of the realistic-structure test. -/
def leanneUser : RawUser :=
  { id := 1, name := "Leanne Graham", email := "Sincere@april.biz",
    phone := "1-770-736-8031 x56442", website := "hildegard.org",
    companyName := "Romaguera-Crona" }

/-- Second mock JSONPlaceholder user of the realistic-structure test. -/
def ervinUser : RawUser :=
  { id := 2, name := "Ervin Howell", email := "Shanna@melissa.tv",
    phone := "010-692-6593 x09125", website := "anastasia.net",
    companyName := "Deckow-Crist" }

/-- User whose name is a single token, used to probe the last-name
fallback. -/
def soloUser : RawUser :=
  { id := 3, name := "Ervin", email := "e@x.com", phone := "123",
    website := "e.com", companyName := "Solo" }

/-- Reactive state of the StudentsPage component: the students, loading
and error refs. -/
structure ViewState where
  students : List Student
  loading : Bool
  error : Option String
deriving DecidableEq

/-- Initial ref values of StudentsPage: empty list, loading false, error
null. -/
def initState : ViewState := { students := [], loading := false, error := none }

/-- Start of the onMounted handler, before the awaited fetch: loading is
set true and error cleared. -/
def mountStart (s : ViewState) : ViewState := { s with loading := true, error := none }

/-- Truthiness of the error property the page reads off the fetch result:
a plain array carries no such property, so the read is undefined and
falsy; the error object carries its boolean. -/
def resultError : FetchResultV → Bool
  | .students _ => false
  | .errObj o => o.error

/-- Message carried by a failure result; on the success side the property
would be undefined, modelled by the empty string. -/
def resultMessage : FetchResultV → String
  | .students _ => ""
  | .errObj o => o.message

/-- Student array carried by a success result; unused on the failure
side. -/
def resultList : FetchResultV → List Student
  | .students l => l
  | .errObj _ => []

/-- Resolution step of onMounted: branch on the truthiness of the error
property, then the finally block clears loading. -/
def applyResult (s : ViewState) (r : FetchResultV) : ViewState :=
  let s1 :=
    if resultError r then { s with error := some (resultMessage r) }
    else { s with students := resultList r }
  { s1 with loading := false }

/-- JavaScript truthiness of the error ref: null and the empty string are
the falsy cases. -/
def errorTruthy : Option String → Bool
  | none => false
  | some m => !(m == "")

/-- Section of the StudentsPage template that actually renders. -/
inductive RenderView where
  | loadingView
  | errorView (msg : String)
  | listView (items : List Student)
deriving DecidableEq

/-- Template dispatch of StudentsPage: the loading branch, else the error
branch, else the student list. -/
def render (s : ViewState) : RenderView :=
  if s.loading then .loadingView
  else if errorTruthy s.error then .errorView (s.error.getD "")
  else .listView s.students

/-- Boolean discriminator for the loading section. -/
def isLoadingView : RenderView → Bool
  | .loadingView => true
  | _ => false

/-- Boolean discriminator for the error section. -/
def isErrorView : RenderView → Bool
  | .errorView _ => true
  | _ => false

/-- Boolean discriminator for the list section. -/
def isListView : RenderView → Bool
  | .listView _ => true
  | _ => false

/-- Last name as claim C4 words it: the last space-separated token of the
lower-cased name, or the literal user when there is at most one token. -/
def claimLastName (name : String) : List Char :=
  let toks := splitSpace (name.data.map Char.toLower)
  if toks.length ≤ 1 then "user".data else toks.getD (toks.length - 1) []

/-- First name as claim C4 words it: the first token of the lower-cased
name, or the literal student when there are none; the split of this model
always yields at least one fragment. -/
def claimFirstName (name : String) : List Char :=
  let toks := splitSpace (name.data.map Char.toLower)
  toks.getD 0 []

/-- Email as claim C4 words it, built from the claim-side name parts. -/
def claimEmail (name : String) : List Char :=
  claimFirstName name ++ ".".data ++ claimLastName name ++ "@student.edu.ph".data

theorem splitSpace_ne_nil (cs : List Char) : splitSpace cs ≠ [] := by
  cases cs with
  | nil => simp [splitSpace]
  | cons c cs =>
    simp only [splitSpace]
    cases h : splitSpace cs with
    | nil => simp
    | cons t ts => by_cases hc : c = ' ' <;> simp [hc]

theorem transformFrom_length (start : Nat) (users : List RawUser) :
    (transformFrom start users).length = users.length := by
  induction users generalizing start with
  | nil => rfl
  | cons u us ih => simp [transformFrom, ih]

theorem transform_length (users : List RawUser) :
    (transform users).length = users.length := transformFrom_length 0 users

theorem transformFrom_get (start : Nat) (users : List RawUser) (i : Nat)
    (h : i < users.length) (h2 : i < (transformFrom start users).length) :
    (transformFrom start users).get ⟨i, h2⟩ = transformUser (users.get ⟨i, h⟩) (start + i) := by
  induction users generalizing start i with
  | nil => exact absurd h (Nat.not_lt_zero i)
  | cons u us ih =>
    cases i with
    | zero => rfl
    | succ j =>
      have hj : j < us.length := Nat.lt_of_succ_lt_succ h
      have hj2 : j < (transformFrom (start + 1) us).length := by
        rw [transformFrom_length]; exact hj
      have step : (transformFrom start (u :: us)).get ⟨j + 1, h2⟩
          = (transformFrom (start + 1) us).get ⟨j, hj2⟩ := rfl
      rw [step, ih (start + 1) j hj hj2]
      have harith : start + 1 + j = start + (j + 1) := by omega
      rw [harith]
      rfl

theorem transform_get (users : List RawUser) (i : Nat)
    (h : i < users.length) (h2 : i < (transform users).length) :
    (transform users).get ⟨i, h2⟩ = transformUser (users.get ⟨i, h⟩) i := by
  have := transformFrom_get 0 users i h h2
  rwa [Nat.zero_add] at this

theorem errorMessage_ne_empty (e : AxiosError) : errorMessage e ≠ "" := by
  unfold errorMessage
  by_cases h1 : e.code = some "ECONNABORTED"
  · simp [h1]
  · simp only [h1, if_false]
    cases h2 : e.responseStatus with
    | some status =>
      intro hcontra
      have hlen := congrArg String.length hcontra
      rw [String.length_append] at hlen
      have h14 : ("Server error: " : String).length = 14 := rfl
      have h0 : ("" : String).length = 0 := rfl
      omega
    | none => by_cases h3 : e.hasRequest <;> simp [h3]

/-- Claim C1: every failed fetch resolves to the structured error object
with error set to true, never an exception, and the message is chosen by
cause in priority order: the ECONNABORTED code yields the timeout text, a
received response yields the server-error text with the numeric status
interpolated, a sent request without response yields the network text,
and anything else the generic fallback. -/
theorem fetchStudents_failure_contract (e : AxiosError) :
    fetchStudents (AxiosResult.err e)
      = FetchResultV.errObj { error := true, message := errorMessage e } ∧
    (e.code = some "ECONNABORTED" →
      errorMessage e = "Request timeout - please try again") ∧
    (e.code ≠ some "ECONNABORTED" → ∀ status, e.responseStatus = some status →
      errorMessage e = "Server error: " ++ toString status) ∧
    (e.code ≠ some "ECONNABORTED" → e.responseStatus = none → e.hasRequest = true →
      errorMessage e = "Network error - please check your connection") ∧
    (e.code ≠ some "ECONNABORTED" → e.responseStatus = none → e.hasRequest = false →
      errorMessage e = "Failed to fetch students") := by
  refine ⟨rfl, ?_, ?_, ?_, ?_⟩
  · intro h; simp [errorMessage, h]
  · intro h status hs; simp [errorMessage, h, hs]
  · intro h hs hr; simp [errorMessage, h, hs, hr]
  · intro h hs hr; simp [errorMessage, h, hs, hr]

/-- Witness for claim C1: the four failure causes evaluated at concrete
axios errors. -/
theorem fetchStudents_failure_contract_witness :
    errorMessage { code := some "ECONNABORTED", responseStatus := none, hasRequest := false }
      = "Request timeout - please try again" ∧
    errorMessage { code := none, responseStatus := some 404, hasRequest := true }
      = "Server error: " ++ toString 404 ∧
    errorMessage { code := none, responseStatus := none, hasRequest := true }
      = "Network error - please check your connection" ∧
    errorMessage { code := none, responseStatus := none, hasRequest := false }
      = "Failed to fetch students" :=
  ⟨(fetchStudents_failure_contract _).2.1 rfl,
   (fetchStudents_failure_contract _).2.2.1 (by decide) 404 rfl,
   (fetchStudents_failure_contract _).2.2.2.1 (by decide) rfl rfl,
   (fetchStudents_failure_contract _).2.2.2.2 (by decide) rfl rfl⟩

/-- Claim C2: on the two realistic mock users the transform produces the
stated courses, years, emails and websites. -/
theorem transform_realistic_pair :
    (transform [leanneUser, ervinUser]).map (fun s => (s.course, s.year, s.email, s.website))
      = [("BS Computer Science", "1", "leanne.graham@student.edu.ph", "leanne-graham.edu.ph"),
         ("BS Information Technology", "2", "ervin.howell@student.edu.ph", "ervin-howell.edu.ph")] := by
  decide

/-- Claim C5: the transform keeps the length and the order of the input,
and every output record is a function of only the raw user at the same
position and the position itself. -/
theorem transform_length_order (users : List RawUser) :
    (transform users).length = users.length ∧
    (∀ (i : Nat) (h1 : i < users.length) (h2 : i < (transform users).length),
      (transform users).get ⟨i, h2⟩ = transformUser (users.get ⟨i, h1⟩) i) ∧
    (∀ (others : List RawUser) (i : Nat) (h1 : i < users.length)
       (h2 : i < (transform users).length) (h3 : i < others.length)
       (h4 : i < (transform others).length),
      users.get ⟨i, h1⟩ = others.get ⟨i, h3⟩ →
      (transform users).get ⟨i, h2⟩ = (transform others).get ⟨i, h4⟩) := by
  refine ⟨transform_length users, fun i h1 h2 => transform_get users i h1 h2, ?_⟩
  intro others i h1 h2 h3 h4 heq
  rw [transform_get users i h1 h2, transform_get others i h3 h4, heq]

/-- Witness for claim C5: a singleton input evaluated concretely. -/
theorem transform_length_order_witness :
    (transform [leanneUser]).length = 1 ∧
    (transform [leanneUser]).get ⟨0, by decide⟩ = transformUser leanneUser 0 := by
  refine ⟨(transform_length_order [leanneUser]).1, ?_⟩
  exact (transform_length_order [leanneUser]).2.1 0 (by decide) (by decide)

/-- Claim C8: the id and the name of every raw user pass through the
transform unchanged, at every position of every input. -/
theorem id_name_passthrough (users : List RawUser) (i : Nat)
    (h1 : i < users.length) (h2 : i < (transform users).length) :
    ((transform users).get ⟨i, h2⟩).id = (users.get ⟨i, h1⟩).id ∧
    ((transform users).get ⟨i, h2⟩).name = (users.get ⟨i, h1⟩).name := by
  rw [transform_get users i h1 h2]
  exact ⟨rfl, rfl⟩

/-- Witness for claim C8: the pass-through observed on a singleton
input. -/
theorem id_name_passthrough_witness :
    ((transform [leanneUser]).get ⟨0, by decide⟩).id = 1 ∧
    ((transform [leanneUser]).get ⟨0, by decide⟩).name = "Leanne Graham" :=
  id_name_passthrough [leanneUser] 0 (by decide) (by decide)

/-- Claim C9: the error property discriminates every fetch outcome: a
successful outcome is a plain array whose error read is falsy, the empty
array included, and a failed outcome is the tagged object with error true
and a nonempty message, so the error branch of the page classifies every
outcome correctly. -/
theorem result_error_discriminates (r : AxiosResult) :
    ((∃ l, fetchStudents r = FetchResultV.students l) →
      resultError (fetchStudents r) = false) ∧
    resultError (fetchStudents (AxiosResult.ok [])) = false ∧
    ((∃ e, r = AxiosResult.err e) →
      ∃ m, fetchStudents r = FetchResultV.errObj { error := true, message := m } ∧ m ≠ "") ∧
    (resultError (fetchStudents r) = true ↔ ∃ e, r = AxiosResult.err e) := by
  refine ⟨?_, rfl, ?_, ?_⟩
  · rintro ⟨l, hl⟩
    rw [hl]
    rfl
  · rintro ⟨e, he⟩
    subst he
    exact ⟨errorMessage e, rfl, errorMessage_ne_empty e⟩
  · constructor
    · intro hr
      cases r with
      | ok data => simp [fetchStudents, resultError] at hr
      | err e => exact ⟨e, rfl⟩
    · rintro ⟨e, he⟩
      subst he
      rfl

/-- Witness for claim C9: both sides of the discrimination evaluated at
concrete outcomes. -/
theorem result_error_discriminates_witness :
    resultError (fetchStudents (AxiosResult.ok [])) = false ∧
    ∃ m, fetchStudents (AxiosResult.err { code := none, responseStatus := none, hasRequest := false })
        = FetchResultV.errObj { error := true, message := m } ∧ m ≠ "" :=
  ⟨(result_error_discriminates (AxiosResult.ok [])).2.1,
   (result_error_discriminates _).2.2.1 ⟨_, rfl⟩⟩

/-- Claim C3: the year of the student at position i is the string of
i modulo four plus one, hence one of four values, and the course is the
entry of the fixed ten-course list at i modulo ten, hence one of ten
values; both depend on the position only, not on the record. -/
theorem year_course_positional (users : List RawUser) (i : Nat)
    (h : i < (transform users).length) :
    ((transform users).get ⟨i, h⟩).year = toString (i % 4 + 1) ∧
    ((transform users).get ⟨i, h⟩).year ∈ ["1", "2", "3", "4"] ∧
    ((transform users).get ⟨i, h⟩).course = courses.getD (i % 10) "" ∧
    ((transform users).get ⟨i, h⟩).course ∈ courses ∧
    (∀ (others : List RawUser) (h2 : i < (transform others).length),
      ((transform others).get ⟨i, h2⟩).year = ((transform users).get ⟨i, h⟩).year ∧
      ((transform others).get ⟨i, h2⟩).course = ((transform users).get ⟨i, h⟩).course) := by
  have hu : i < users.length := by rwa [transform_length] at h
  rw [transform_get users i hu h]
  have hy : (transformUser (users.get ⟨i, hu⟩) i).year = toString (i % 4 + 1) := rfl
  have hc : (transformUser (users.get ⟨i, hu⟩) i).course = courses.getD (i % 10) "" := rfl
  refine ⟨hy, ?_, hc, ?_, ?_⟩
  · rw [hy]
    have h4 : i % 4 = 0 ∨ i % 4 = 1 ∨ i % 4 = 2 ∨ i % 4 = 3 := by omega
    rcases h4 with h4 | h4 | h4 | h4 <;> rw [h4] <;> decide
  · rw [hc]
    have h10 : i % 10 = 0 ∨ i % 10 = 1 ∨ i % 10 = 2 ∨ i % 10 = 3 ∨ i % 10 = 4 ∨
        i % 10 = 5 ∨ i % 10 = 6 ∨ i % 10 = 7 ∨ i % 10 = 8 ∨ i % 10 = 9 := by omega
    rcases h10 with h10 | h10 | h10 | h10 | h10 | h10 | h10 | h10 | h10 | h10 <;>
      rw [h10] <;> decide
  · intro others h2
    have ho : i < others.length := by rwa [transform_length] at h2
    rw [transform_get others i ho h2]
    exact ⟨rfl, rfl⟩

/-- Witness for claim C3: position zero of a singleton input. -/
theorem year_course_positional_witness :
    ((transform [ervinUser]).get ⟨0, by decide⟩).year = toString (0 % 4 + 1) ∧
    ((transform [ervinUser]).get ⟨0, by decide⟩).course = courses.getD (0 % 10) "" :=
  ⟨(year_course_positional [ervinUser] 0 (by decide)).1,
   (year_course_positional [ervinUser] 0 (by decide)).2.2.1⟩

/-- Claim C6: when the raw phone holds at least ten digit characters, the
formatted phone is the +63 prefix followed by the groups of three, three
and four of the first ten stripped digits, separated by single spaces,
and the digits in the groups are exactly digit characters. -/
theorem phone_format_ten_digits (u : RawUser) (i : Nat)
    (h : 10 ≤ (u.phone.data.filter Char.isDigit).length) :
    (transformUser u i).phone = String.mk
      ("+63 ".data ++ (u.phone.data.filter Char.isDigit).take 3 ++ [' ']
        ++ ((u.phone.data.filter Char.isDigit).drop 3).take 3 ++ [' ']
        ++ ((u.phone.data.filter Char.isDigit).drop 6).take 4) ∧
    ((u.phone.data.filter Char.isDigit).take 3).length = 3 ∧
    (((u.phone.data.filter Char.isDigit).drop 3).take 3).length = 3 ∧
    (((u.phone.data.filter Char.isDigit).drop 6).take 4).length = 4 ∧
    (∀ c ∈ u.phone.data.filter Char.isDigit, c.isDigit = true) := by
  have hds : (u.phone.data.filter Char.isDigit).length ≥ 10 := h
  refine ⟨?_, ?_, ?_, ?_, fun c hc => (List.mem_filter.mp hc).2⟩
  · show String.mk (formattedPhone u.phone) = _
    apply congrArg String.mk
    unfold formattedPhone phoneDigits
    have e1 : ((u.phone.data.filter Char.isDigit).take 10).take 3
        = (u.phone.data.filter Char.isDigit).take 3 := by
      rw [List.take_take]
      norm_num
    have e2 : ((u.phone.data.filter Char.isDigit).take 10).drop 3
        = ((u.phone.data.filter Char.isDigit).drop 3).take 7 := by
      rw [List.drop_take]
    have e3 : ((u.phone.data.filter Char.isDigit).take 10).drop 6
        = ((u.phone.data.filter Char.isDigit).drop 6).take 4 := by
      rw [List.drop_take]
    rw [e1, e2, e3, List.take_take, List.take_take]
    norm_num
  · rw [List.length_take]
    omega
  · rw [List.length_take, List.length_drop]
    omega
  · rw [List.length_take, List.length_drop]
    omega

/-- Witness for claim C6: evaluated on the first realistic mock phone. -/
theorem phone_format_ten_digits_witness :
    (transformUser leanneUser 0).phone = "+63 177 073 6803" := by
  have h := (phone_format_ten_digits leanneUser 0 (by decide)).1
  rw [h]
  decide

/-- Claim C10: when the raw phone holds fewer than ten digit characters,
the transform still produces a phone string: the +63 prefix, the first
at-most-three digits, a space, the next at-most-three digits, a space,
and all remaining digits, with no padding and the digit order kept. -/
theorem phone_format_short (u : RawUser) (i : Nat)
    (h : (u.phone.data.filter Char.isDigit).length < 10) :
    (transformUser u i).phone = String.mk
      ("+63 ".data ++ (u.phone.data.filter Char.isDigit).take 3 ++ [' ']
        ++ ((u.phone.data.filter Char.isDigit).drop 3).take 3 ++ [' ']
        ++ (u.phone.data.filter Char.isDigit).drop 6) ∧
    ((u.phone.data.filter Char.isDigit).take 3).length
      = min (u.phone.data.filter Char.isDigit).length 3 ∧
    (((u.phone.data.filter Char.isDigit).drop 3).take 3).length
      = min ((u.phone.data.filter Char.isDigit).length - 3) 3 ∧
    (u.phone.data.filter Char.isDigit).take 3
        ++ ((u.phone.data.filter Char.isDigit).drop 3).take 3
        ++ (u.phone.data.filter Char.isDigit).drop 6
      = u.phone.data.filter Char.isDigit := by
  have hall : (u.phone.data.filter Char.isDigit).take 10 = u.phone.data.filter Char.isDigit :=
    List.take_of_length_le (Nat.le_of_lt h)
  refine ⟨?_, ?_, ?_, ?_⟩
  · show String.mk (formattedPhone u.phone) = _
    apply congrArg String.mk
    unfold formattedPhone phoneDigits
    rw [hall]
    have e3 : ((u.phone.data.filter Char.isDigit).drop 6).take 4
        = (u.phone.data.filter Char.isDigit).drop 6 := by
      apply List.take_of_length_le
      rw [List.length_drop]
      omega
    rw [e3]
  · rw [List.length_take]
    omega
  · rw [List.length_take, List.length_drop]
    omega
  · rw [← List.take_add]
    exact List.take_append_drop 6 _

/-- Witness for claim C10: evaluated on a three-digit phone, where the
last group comes out empty. -/
theorem phone_format_short_witness :
    (transformUser soloUser 0).phone = "+63 123  " := by
  have h := (phone_format_short soloUser 0 (by decide)).1
  rw [h]
  decide

theorem nameParts_ne_nil (name : String) : nameParts name ≠ [] :=
  splitSpace_ne_nil (name.data.map Char.toLower)

theorem getD_zero_eq_head {α : Type} (l : List α) (d : α) (h : l ≠ []) :
    l.getD 0 d = l.head h := by
  cases l with
  | nil => exact absurd rfl h
  | cons a as => rfl

theorem getD_last_eq_getLast {α : Type} (l : List α) (d : α) (h : l ≠ []) :
    l.getD (l.length - 1) d = l.getLast h := by
  have hlt : l.length - 1 < l.length := by
    cases l with
    | nil => exact absurd rfl h
    | cons a as => simp
  rw [List.getLast_eq_getElem, List.getD_eq_getElem?_getD, List.getElem?_eq_getElem hlt]
  rfl

/-- Counterexample to claim C4: for the single-token name of soloUser the
code keeps the lone lower-cased token as both first and last name, while
the claim prescribes the literal user as last name when there is only one
token; the emails differ. -/
theorem lastName_single_token_counterexample :
    (transformUser soloUser 0).email = "ervin.ervin@student.edu.ph" ∧
    String.mk (claimEmail "Ervin") = "ervin.user@student.edu.ph" ∧
    (transformUser soloUser 0).email ≠ String.mk (claimEmail "Ervin") := by
  decide

/-- Claim C4 amended: the transform lower-cases the name and splits it on
single spaces keeping empty fragments, so at least one fragment always
exists; the first name is the first fragment, or the literal student when
that fragment is empty; the last name is the last fragment, or the
literal user when that fragment is empty; email and website interpolate
the two names as stated, and a name made of a single nonempty fragment
gets equal first and last names. -/
theorem email_website_from_name (u : RawUser) (i : Nat) :
    (transformUser u i).email = String.mk
      (jsOr ((nameParts u.name).head (nameParts_ne_nil u.name)) "student".data
        ++ ".".data
        ++ jsOr ((nameParts u.name).getLast (nameParts_ne_nil u.name)) "user".data
        ++ "@student.edu.ph".data) ∧
    (transformUser u i).website = String.mk
      (jsOr ((nameParts u.name).head (nameParts_ne_nil u.name)) "student".data
        ++ "-".data
        ++ jsOr ((nameParts u.name).getLast (nameParts_ne_nil u.name)) "user".data
        ++ ".edu.ph".data) ∧
    (∀ t, nameParts u.name = [t] → t ≠ [] → firstName u.name = lastName u.name) := by
  have hne := nameParts_ne_nil u.name
  refine ⟨?_, ?_, ?_⟩
  · show String.mk (studentEmail u.name) = _
    apply congrArg String.mk
    unfold studentEmail firstName lastName
    rw [getD_zero_eq_head _ _ hne, getD_last_eq_getLast _ _ hne]
  · show String.mk (phWebsite u.name) = _
    apply congrArg String.mk
    unfold phWebsite firstName lastName
    rw [getD_zero_eq_head _ _ hne, getD_last_eq_getLast _ _ hne]
  · intro t ht htne
    unfold firstName lastName
    rw [ht]
    show jsOr t "student".data = jsOr t "user".data
    unfold jsOr
    rw [if_neg htne, if_neg htne]

/-- Witness for claim C4 amended: the single-token user evaluated
concretely, with equal first and last names. -/
theorem email_website_from_name_witness :
    (transformUser soloUser 0).email = String.mk
      (jsOr ((nameParts soloUser.name).head (nameParts_ne_nil soloUser.name)) "student".data
        ++ ".".data
        ++ jsOr ((nameParts soloUser.name).getLast (nameParts_ne_nil soloUser.name)) "user".data
        ++ "@student.edu.ph".data) ∧
    firstName soloUser.name = lastName soloUser.name :=
  ⟨(email_website_from_name soloUser 0).1,
   (email_website_from_name soloUser 0).2.2 "ervin".data (by decide) (by decide)⟩

/-- Claim C7: the mount sequence of the students page shows the loading
section alone while the fetch is pending, shows the empty non-error list
container when the fetch resolves to the empty list, shows exactly the
verbatim failure message when it resolves to a failure, and in every
state exactly one of the three sections renders. -/
theorem view_state_machine (e : AxiosError) (s : ViewState) :
    render (mountStart initState) = RenderView.loadingView ∧
    render (applyResult (mountStart initState) (FetchResultV.students []))
      = RenderView.listView [] ∧
    render (applyResult (mountStart initState) (fetchStudents (AxiosResult.err e)))
      = RenderView.errorView (errorMessage e) ∧
    (isLoadingView (render s)).toNat + (isErrorView (render s)).toNat
        + (isListView (render s)).toNat = 1 := by
  refine ⟨rfl, rfl, ?_, ?_⟩
  · have hne := errorMessage_ne_empty e
    simp [render, applyResult, mountStart, initState, resultError, resultMessage,
      fetchStudents, errorTruthy, hne]
  · cases hr : render s <;> simp [isLoadingView, isErrorView, isListView]

